import Mathlib

/-!
Shallow embedding of the MaidSafe routing core (`routing_impl.cc`) and proofs
about its send path, join/recovery state machine and timer-driven callbacks.

Node and connection identifiers are modelled as `Nat` (the zero value plays
the role of an uninitialised `NodeId`, matching `NodeId::IsZero()`).  The
stateful collaborators (`routing_table_`, `timer_`, `network_`) are carried in
an explicit `World` record; transport and callback side effects are recorded
as an explicit list of `Action` values in the order the code performs them.
-/

namespace MaidSafeRouting

/-- Tunable parameters (`maidsafe/routing/parameters.h`; values from the spec,
the structure fields keep the source's names). -/
structure Parameters where
  max_data_size : Nat
  node_group_size : Nat
  closest_nodes_size : Nat
  max_routing_table_size : Nat
  routing_table_size_threshold : Nat
  hops_to_live : Nat
  find_node_interval : Nat
  find_close_node_interval : Nat
  recovery_time_lag : Nat
  re_bootstrap_time_lag : Nat
  maximum_find_close_node_failures : Nat
deriving DecidableEq, Repr

/-- Default parameter values given in the spec (§6). -/
def defaultParameters : Parameters :=
  { max_data_size := 1048576
    node_group_size := 8
    closest_nodes_size := 8
    max_routing_table_size := 64
    routing_table_size_threshold := 48
    hops_to_live := 50
    find_node_interval := 60
    find_close_node_interval := 5
    recovery_time_lag := 1
    re_bootstrap_time_lag := 10
    maximum_find_close_node_failures := 3 }

/-- A routing-table entry as used by `routing_impl.cc` (`NodeInfo`): the
peer's node id and its transport connection id. -/
structure NodeInfo where
  node_id : Nat
  connection_id : Nat
deriving DecidableEq, Repr

/-- The boost::asio completion status as far as the code inspects it: every
comparison in `routing_impl.cc` is against `operation_aborted`. -/
inductive ErrorCode where
  | success
  | operationAborted
  | otherError
deriving DecidableEq, Repr

/-- Return codes surfaced through the network-status functor
(`maidsafe/routing/return_codes.h`, spec §6). -/
inductive StatusCode where
  | kSuccess
  | kNetworkShuttingDown
  | kNotJoined
  | kAnonymousSessionEnded
  | kPartialJoinSessionEnded
  | rtSize (n : Nat)
deriving DecidableEq, Repr

/-- A pending-response entry held by the `Timer` (spec §3: `message_id →
\x7b callback, remaining_responses, deadline \x7d`). -/
structure PendingTask where
  taskId : Nat
  expectedResponses : Nat
  deadline : Nat
deriving DecidableEq, Repr

/-- The pending-response table with its monotonic task-id counter. -/
structure TimerState where
  nextTaskId : Nat
  tasks : List PendingTask
deriving DecidableEq, Repr

/-- `Timer::AddTask(timeout, functor, expected)`: registers a pending task
with deadline `now + timeout` and returns the fresh message id. -/
def TimerState.addTask (t : TimerState) (now timeout expected : Nat) :
    Nat × TimerState :=
  (t.nextTaskId,
   { nextTaskId := t.nextTaskId + 1,
     tasks := { taskId := t.nextTaskId, expectedResponses := expected,
                deadline := now + timeout } :: t.tasks })

/-- `Timer::CancelTask(message_id)`: removes the pending task with that id. -/
def TimerState.cancelTask (t : TimerState) (id : Nat) : TimerState :=
  { t with tasks := t.tasks.filter (fun task => task.taskId ≠ id) }

/-- The wire envelope built by `Routing::Impl::Send`
(`protobuf::Message`); optional protobuf fields are `Option`s. -/
structure ProtoMessage where
  destination_id : Nat
  routing_message : Bool
  data : List (List Nat)
  cacheable : Bool
  direct : Bool
  client_node : Bool
  request : Bool
  hops_to_live : Nat
  group_claim : Option Nat
  id : Option Nat
  replication : Nat
  relay_id : Option Nat
  relay_connection_id : Option Nat
  source_id : Option Nat
deriving DecidableEq, Repr

/-- `proto_message.id()`: protobuf returns the default value 0 when the
optional `id` field was never set. -/
def ProtoMessage.idVal (m : ProtoMessage) : Nat := m.id.getD 0

/-- Modelled from the spec: the FindNodes request envelope produced by
`rpcs::FindNodes` (`rpcs.cc` is not part of the sources here); spec §4.2:
`(source = self, target = T, num_nodes_requested = n, relay_id?,
relay_connection_id?)`. -/
structure FindNodesRpc where
  source : Nat
  target : Nat
  num_nodes_requested : Nat
  relay_message : Bool
  relay_connection_id : Option Nat
deriving DecidableEq, Repr

/-- Observable side effects of the routines of `routing_impl.cc`, recorded in
program order: transport sends, callback invocations, network-status
notifications and the arming of the three asio timers. -/
inductive Action where
  | callbackInvoked (responses : List (List Nat))
  | sendToDirect (msg : ProtoMessage) (connection_id : Nat)
  | sendToClosest (msg : ProtoMessage)
  | localReceive (msg : ProtoMessage)
  | notifyStatus (code : StatusCode)
  | sendRpcToDirect (rpc : FindNodesRpc) (connection_id : Nat)
  | sendRpcToClosest (rpc : FindNodesRpc)
  | armSetupTimer (interval : Nat) (attempts : Nat)
  | armRecoveryTimer (interval : Nat) (ignoreSize : Bool)
  | armRecoveryTimerStaleGuard (interval : Nat) (captured : ErrorCode)
  | armReBootstrapTimer (delay : Nat)
  | removeConnection (connection_id : Nat)
deriving DecidableEq, Repr

/-- The mutable state of `Routing::Impl` (plus the collaborators it owns)
that the embedded routines read and write. -/
structure World where
  params : Parameters
  kNodeId : Nat
  kAnonymousNode : Bool
  clientMode : Bool
  running : Bool
  now : Nat
  rt : List NodeInfo
  nrt : List NodeInfo
  timer : TimerState
  bootstrapConnectionId : Nat
  relayConnectionId : Nat
deriving DecidableEq, Repr

/-! ### Send (`routing_impl.cc:314-398`) -/

/-- The input-validation predicate of `Send` (`routing_impl.cc:321-333`):
zero destination, empty payload, or payload larger than
`Parameters::max_data_size`. -/
def sendInputInvalid (p : Parameters) (destination_id : Nat)
    (data : List Nat) : Prop :=
  destination_id = 0 ∨ data = [] ∨ data.length > p.max_data_size

instance (p : Parameters) (d : Nat) (xs : List Nat) :
    Decidable (sendInputInvalid p d xs) := by
  unfold sendInputInvalid; infer_instance

/-- The envelope as first populated by `Send` (`routing_impl.cc:335-347`),
before the task id and replication are filled in. -/
def initialSendMessage (w : World) (destination_id group_claim : Nat)
    (data : List Nat) (direct cacheable : Bool) : ProtoMessage :=
  { destination_id := destination_id
    routing_message := false
    data := [data]
    cacheable := cacheable
    direct := direct
    client_node := w.clientMode
    request := true
    hops_to_live := w.params.hops_to_live
    group_claim := if group_claim ≠ 0 then some group_claim else none
    id := none
    replication := 1
    relay_id := none
    relay_connection_id := none
    source_id := none }

/-- `routing_impl.cc:349-356`: register the pending task (only when a
response functor was supplied) with expected responses 1 (direct) or
`node_group_size` (group), stamping the task id onto the envelope. -/
def sendTaskSetup (w : World) (hasResponseFunctor : Bool) (timeout : Nat)
    (direct : Bool) (m : ProtoMessage) : ProtoMessage × TimerState :=
  if direct then
    if hasResponseFunctor then
      let r := w.timer.addTask w.now timeout 1
      ({ m with id := some r.1 }, r.2)
    else (m, w.timer)
  else
    if hasResponseFunctor then
      let r := w.timer.addTask w.now timeout w.params.node_group_size
      ({ m with id := some r.1 }, r.2)
    else (m, w.timer)

/-- `Routing::Impl::Send` (`routing_impl.cc:314-398`): returns the updated
state together with the observable actions in program order. -/
def Send (w : World) (destination_id group_claim : Nat) (data : List Nat)
    (hasResponseFunctor : Bool) (timeout : Nat) (direct cacheable : Bool) :
    World × List Action :=
  if destination_id = 0 then
    (w, if hasResponseFunctor then [Action.callbackInvoked []] else [])
  else if data = [] ∨ data.length > w.params.max_data_size then
    (w, if hasResponseFunctor then [Action.callbackInvoked []] else [])
  else
    let m0 := initialSendMessage w destination_id group_claim data direct cacheable
    let mt := sendTaskSetup w hasResponseFunctor timeout direct m0
    let replication := if direct then 1 else w.params.node_group_size
    let m1 := { mt.1 with replication := replication }
    let w1 := { w with timer := mt.2 }
    if w.kAnonymousNode ∨ w.rt.length = 0 then
      let m2 := { m1 with relay_id := some w.kNodeId,
                          relay_connection_id := some w.relayConnectionId }
      (w1, [Action.sendToDirect m2 w.bootstrapConnectionId])
    else
      let m2 := { m1 with source_id := some w.kNodeId }
      if w.kNodeId ≠ destination_id then
        (w1, [Action.sendToClosest m2])
      else if w.clientMode then
        (w1, [Action.sendToClosest m2])
      else
        (w1, [Action.localReceive m2])

/-- The completion handler `Send` installs on the bootstrap-relay path
(`routing_impl.cc:365-381`): on a transport failure it cancels the pending
task for the envelope's id and notifies `kAnonymousSessionEnded` (anonymous
node) or `kPartialJoinSessionEnded` (partial join). -/
def relaySendResult (w : World) (msgId : Nat) (result : Int) :
    World × List Action :=
  if result ≠ 0 then
    ({ w with timer := w.timer.cancelTask msgId },
     [Action.notifyStatus
        (if w.kAnonymousNode then StatusCode.kAnonymousSessionEnded
         else StatusCode.kPartialJoinSessionEnded)])
  else (w, [])

/-! ### Join / recovery state machine (`routing_impl.cc:117-233, 539-603`) -/

/-- `Routing::Impl::ReBootstrap` (`routing_impl.cc:581-590`): under the
running guard, (re-)arms the re-bootstrap timer with
`Parameters::re_bootstrap_time_lag`; the wake runs `DoReBootstrap`. -/
def ReBootstrap (w : World) : World × List Action :=
  if w.running then
    (w, [Action.armReBootstrapTimer w.params.re_bootstrap_time_lag])
  else (w, [])

/-- `Routing::Impl::FindClosestNode` (`routing_impl.cc:168-233`).  On a
timer wake (`attempts ≠ 0`): a non-empty routing table ends the setup loop
and arms the recovery timer; reaching
`Parameters::maximum_find_close_node_failures` calls `ReBootstrap()` and
falls through (the source has no `return` there).  The common tail sends
`FindNodes(self, self, 1, relay)` to the bootstrap connection and re-arms
the setup timer with the incremented attempt count. -/
def FindClosestNode (w : World) (error_code : ErrorCode) (attempts : Nat) :
    World × List Action :=
  if ¬ w.running then (w, [])
  else if error_code = ErrorCode.operationAborted then (w, [])
  else if attempts ≠ 0 ∧ w.rt.length > 0 then
    (w, [Action.armRecoveryTimer w.params.find_node_interval false])
  else
    let pre : List Action :=
      if attempts ≠ 0 ∧ attempts ≥ w.params.maximum_find_close_node_failures
      then (ReBootstrap w).2
      else []
    let rpc : FindNodesRpc :=
      { source := w.kNodeId, target := w.kNodeId, num_nodes_requested := 1,
        relay_message := true,
        relay_connection_id := some w.relayConnectionId }
    (w, pre ++ [Action.sendRpcToDirect rpc w.bootstrapConnectionId,
                Action.armSetupTimer w.params.find_close_node_interval
                  (attempts + 1)])

/-- `Routing::Impl::ReSendFindNodeRequest` (`routing_impl.cc:539-579`).
An empty routing table schedules re-bootstrap; otherwise, when
`ignore_size` is set or the table is below
`Parameters::routing_table_size_threshold`, a FindNodes request is sent to
the closest node — asking for `closest_nodes_size` nodes only when
`ignore_size` holds and the table is above the threshold, and for
`max_routing_table_size` nodes otherwise — and the recovery timer is
re-armed; the re-arm's wake guard captures the current (stale)
`error_code` (`routing_impl.cc:574-576`). -/
def ReSendFindNodeRequest (w : World) (error_code : ErrorCode)
    (ignore_size : Bool) : World × List Action :=
  if error_code = ErrorCode.operationAborted then (w, [])
  else if w.rt.length = 0 then ReBootstrap w
  else if ignore_size = true ∨
          w.rt.length < w.params.routing_table_size_threshold then
    let num : Nat :=
      if ignore_size = true ∧
         w.rt.length > w.params.routing_table_size_threshold
      then w.params.closest_nodes_size
      else w.params.max_routing_table_size
    let rpc : FindNodesRpc :=
      { source := w.kNodeId, target := w.kNodeId,
        num_nodes_requested := num, relay_message := false,
        relay_connection_id := none }
    if ¬ w.running then (w, [Action.sendRpcToClosest rpc])
    else (w, [Action.sendRpcToClosest rpc,
              Action.armRecoveryTimerStaleGuard w.params.find_node_interval
                error_code])
  else (w, [])

/-! ### Timer wake guards

Each asio `async_wait` lambda in `routing_impl.cc` guards its body with a
comparison against `operation_aborted`.  Every call site except one compares
the lambda's own wake status; the recovery-timer re-arm inside
`ReSendFindNodeRequest` (`routing_impl.cc:575`) compares the *captured*
`error_code` of the enclosing invocation instead of its freshly delivered
`error_code_local`. -/

/-- The wake guard used at `routing_impl.cc:192, 230, 303, 498, 529, 587`:
proceed iff the delivered wake status is not `operation_aborted`. -/
def timerWakeGuard (wake : ErrorCode) : Bool :=
  wake ≠ ErrorCode.operationAborted

/-- The wake guard of the recovery-timer re-arm at `routing_impl.cc:575`:
the lambda receives `error_code_local` but tests the captured outer
`error_code`. -/
def reSendReArmGuard (captured _wake : ErrorCode) : Bool :=
  captured ≠ ErrorCode.operationAborted

/-- The setup-timer wake armed at `routing_impl.cc:229-232`: re-enters
`FindClosestNode` with the delivered status and saved attempt count when the
guard passes. -/
def setupTimerWake (w : World) (attempts : Nat) (wake : ErrorCode) :
    World × List Action :=
  if timerWakeGuard wake then FindClosestNode w wake attempts else (w, [])

/-- A recovery-timer wake armed at `routing_impl.cc:191-194, 302-305,
497-500, 528-531`: re-enters `ReSendFindNodeRequest` with the delivered
status when the guard passes. -/
def recoveryTimerWake (w : World) (ignoreSize : Bool) (wake : ErrorCode) :
    World × List Action :=
  if timerWakeGuard wake then ReSendFindNodeRequest w wake ignoreSize
  else (w, [])

/-- The recovery-timer wake armed at `routing_impl.cc:574-577` inside
`ReSendFindNodeRequest` itself: its guard tests the captured status, then
calls `ReSendFindNodeRequest(error_code_local, false)`. -/
def recoveryTimerWakeStale (w : World) (captured wake : ErrorCode) :
    World × List Action :=
  if reSendReArmGuard captured wake then ReSendFindNodeRequest w wake false
  else (w, [])

/-! ### Connection loss (`routing_impl.cc:434-502`) -/

/-- Modelled from the spec: `RoutingTable::IsThisNodeInRange(target, n)`
(the routing-table sources are not in this tree); spec §4.1: true iff fewer
than `n` table entries lie strictly closer to `target` than this node
does. -/
def isThisNodeInRange (self : Nat) (rt : List NodeInfo) (target : Nat)
    (n : Nat) : Bool :=
  (rt.filter (fun p => Nat.xor p.node_id target < Nat.xor self target)).length
    < n

/-- Modelled from the spec: `RoutingTable::DropNode` keyed by connection id
(spec §4.1 `drop(address_or_connection_id) → Option<Peer>`); returns the
table without the entry and the dropped entry, or a zero `NodeInfo` when no
entry matches. -/
def dropNodeByConnection (rt : List NodeInfo) (conn : Nat) :
    List NodeInfo × NodeInfo :=
  match rt.find? (fun n => n.connection_id == conn) with
  | some n => (rt.filter (fun m => m.connection_id != conn), n)
  | none => (rt, { node_id := 0, connection_id := 0 })

/-- `routing_impl.cc:444-445`: the initial `resend` flag — whether the lost
connection belongs to a routing-table peer lying inside this node's
`closest_nodes_size` range (computed before the entry is dropped). -/
def lostCloseNodeResend (w : World) (lost : Nat) : Bool :=
  match w.rt.find? (fun n => n.connection_id == lost) with
  | some dn => isThisNodeInRange w.kNodeId w.rt dn.node_id
                 w.params.closest_nodes_size
  | none => false

/-- `Routing::Impl::DoOnConnectionLost` (`routing_impl.cc:434-502`):
decides `resend` from whether the lost connection belonged to a
routing-table peer inside the `closest_nodes_size` range, drops the entry
(routing table first, then non-routing table, then bootstrap connection),
and when `resend` holds arms the recovery timer with
`Parameters::recovery_time_lag` for an `ignore_size` FindNodes top-up. -/
def DoOnConnectionLost (w : World) (lost : Nat) : World × List Action :=
  if ¬ w.running then (w, [])
  else
    let resend0 : Bool := lostCloseNodeResend w lost
    let dr := dropNodeByConnection w.rt lost
    let w1 := { w with rt := dr.1 }
    if dr.2.node_id ≠ 0 then
      if resend0 = true then
        (w1, [Action.armRecoveryTimer w.params.recovery_time_lag true])
      else (w1, [])
    else
      let dn := dropNodeByConnection w.nrt lost
      let w2 := { w1 with nrt := dn.1 }
      if dn.2.node_id ≠ 0 then (w2, [])
      else if w.bootstrapConnectionId ≠ 0 ∧ lost = w.bootstrapConnectionId
      then
        let w3 := { w2 with bootstrapConnectionId := 0 }
        if w.kAnonymousNode then
          (w3, [Action.notifyStatus StatusCode.kAnonymousSessionEnded])
        else if w3.rt.length = 0 then
          (w3, [Action.armRecoveryTimer w.params.recovery_time_lag true])
        else (w3, [])
      else (w2, [])

/-! ### BootstrapFromTheseEndpoints drop loop (`routing_impl.cc:117-130`) -/

/-- Modelled from the spec: `RoutingTable::GetClosestNode(target)` (the
routing-table sources are not in this tree); spec §4.1
`closest_node(target)`: the entry minimising XOR distance to `target`. -/
def getClosestNode (target : Nat) (rt : List NodeInfo) : NodeInfo :=
  rt.foldl
    (fun best n =>
      if Nat.xor target n.node_id < Nat.xor target best.node_id then n
      else best)
    (rt.headD { node_id := 0, connection_id := 0 })

/-- Modelled from the spec: `RoutingTable::DropNode` keyed by node id
(spec §4.1); removes the entry with that address. -/
def dropNodeById (rt : List NodeInfo) (id : Nat) : List NodeInfo :=
  rt.filter (fun n => n.node_id != id)

/-- The loop body of `BootstrapFromTheseEndpoints`
(`routing_impl.cc:121-126`): `for (i = 0; i < routing_table_.Size(); ++i)`
re-reads `Size()` of the shrinking table on every iteration; each pass
removes the transport connection of the current closest node and drops it
from the table.  The fuel argument only bounds recursion; it exceeds the
possible iteration count. -/
def bootstrapDropLoop (self : Nat) :
    Nat → Nat → List NodeInfo → List NodeInfo × List Action
  | 0, _, rt => (rt, [])
  | fuel + 1, i, rt =>
    if i < rt.length then
      let rn := getClosestNode self rt
      let rest := bootstrapDropLoop self fuel (i + 1) (dropNodeById rt rn.node_id)
      (rest.1, Action.removeConnection rn.connection_id :: rest.2)
    else (rt, [])

/-- The routing-table clearing phase of
`Routing::Impl::BootstrapFromTheseEndpoints` (`routing_impl.cc:121-128`):
when the table is non-empty, run the drop loop and then notify the
network-status functor with the remaining table size. -/
def bootstrapDropPhase (w : World) : World × List Action :=
  if w.rt.length > 0 then
    let res := bootstrapDropLoop w.kNodeId (w.rt.length + 1) 0 w.rt
    ({ w with rt := res.1 },
     res.2 ++ [Action.notifyStatus (StatusCode.rtSize res.1.length)])
  else (w, [])

/-- The assertion `assert(routing_table_.Size() == 0)` at the top of
`Routing::Impl::DoBootstrap` (`routing_impl.cc:149`), which
`BootstrapFromTheseEndpoints` reaches via `DoJoin` right after its drop
loop. -/
def doBootstrapAssertCheck (rt : List NodeInfo) : Bool :=
  rt.length = 0

/-! ### Helpers and concrete states used by the theorems -/

/-- The payload envelope carried by a transport or local-delivery action,
if any. -/
def Action.envelope : Action → Option ProtoMessage
  | Action.sendToDirect m _ => some m
  | Action.sendToClosest m => some m
  | Action.localReceive m => some m
  | _ => none

/-- A small sample node state: a running, non-anonymous, non-client node
with id 5, two routing-table peers, default parameters, bootstrap
connection 99 and relay connection 77. -/
def sampleWorld : World :=
  { params := defaultParameters, kNodeId := 5, kAnonymousNode := false,
    clientMode := false, running := true, now := 100,
    rt := [{ node_id := 1, connection_id := 11 },
           { node_id := 2, connection_id := 12 }],
    nrt := [], timer := { nextTaskId := 1, tasks := [] },
    bootstrapConnectionId := 99, relayConnectionId := 77 }

/-- The sample node with an empty routing table (partial-join state). -/
def emptyRTWorld : World :=
  { sampleWorld with rt := [] }

/-- The sample node with its routing table right at
`routing_table_size_threshold` (48 entries under the default
parameters). -/
def thresholdWorld : World :=
  { sampleWorld with
    rt := (List.range 48).map
      (fun i => { node_id := i + 1, connection_id := i + 101 }) }

/-- The sample node after the routing-table peer on connection 11 has been
dropped. -/
def afterLostWorld : World :=
  { sampleWorld with rt := [{ node_id := 2, connection_id := 12 }] }

/-! ### Theorems -/

/-- `sendTaskSetup` in closed form: with a response functor it registers one
task (expecting 1 response when direct, `node_group_size` otherwise, with
deadline `now + timeout`) and stamps the fresh id; without one it leaves the
timer and envelope untouched. -/
theorem sendTaskSetup_eq (w : World) (cb : Bool) (timeout : Nat)
    (direct : Bool) (m : ProtoMessage) :
    sendTaskSetup w cb timeout direct m =
      if cb then
        ({ m with id := some w.timer.nextTaskId },
         { nextTaskId := w.timer.nextTaskId + 1,
           tasks := { taskId := w.timer.nextTaskId,
                      expectedResponses :=
                        if direct then 1 else w.params.node_group_size,
                      deadline := w.now + timeout } :: w.timer.tasks })
      else (m, w.timer) := by
  cases direct <;> cases cb <;> simp [sendTaskSetup, TimerState.addTask]

/-- C1: a `Send` whose destination id is zero, whose payload is empty, or
whose payload exceeds `max_data_size` invokes the supplied response functor
exactly once with an empty response list (and does nothing when no functor
was supplied): no envelope is handed to the transport and the state —
including the pending-response table — is unchanged. -/
theorem send_invalid_input_reports_empty
    (w : World) (dest gc : Nat) (data : List Nat) (cb : Bool)
    (timeout : Nat) (direct cacheable : Bool)
    (h : sendInputInvalid w.params dest data) :
    Send w dest gc data cb timeout direct cacheable =
      (w, if cb then [Action.callbackInvoked []] else []) := by
  unfold Send
  by_cases hd : dest = 0
  · rw [if_pos hd]
  · rw [if_neg hd]
    have hval : data = [] ∨ data.length > w.params.max_data_size := by
      rcases h with h | h | h
      · exact absurd h hd
      · exact Or.inl h
      · exact Or.inr h
    rw [if_pos hval]

/-- C1 witness: sending to destination 0 from the sample node with a
callback yields exactly one empty-list callback invocation and no state
change. -/
theorem send_invalid_input_reports_empty_witness :
    sendInputInvalid sampleWorld.params 0 [1] ∧
    Send sampleWorld 0 0 [1] true 30 true false =
      (sampleWorld, if true then [Action.callbackInvoked []] else []) :=
  ⟨Or.inl rfl,
   send_invalid_input_reports_empty sampleWorld 0 0 [1] true 30 true false
     (Or.inl rfl)⟩

/-- C2: every `Send` that passes input validation produces exactly one
envelope whose replication field is 1 when `direct` and `node_group_size`
(the close-group size) otherwise; when a response functor is supplied, a
pending task expecting that many responses with deadline `now + timeout` is
registered and its id is stamped on the envelope; with no functor, the
pending table is untouched and the envelope carries no task id. -/
theorem send_replication_and_pending_task
    (w : World) (dest gc : Nat) (data : List Nat) (cb : Bool)
    (timeout : Nat) (direct cacheable : Bool)
    (hd : dest ≠ 0) (he : data ≠ [])
    (hs : data.length ≤ w.params.max_data_size) :
    ∃ m : ProtoMessage,
      ((Send w dest gc data cb timeout direct cacheable).2.filterMap
         Action.envelope) = [m] ∧
      m.replication = (if direct then 1 else w.params.node_group_size) ∧
      (cb = true →
        m.id = some w.timer.nextTaskId ∧
        (Send w dest gc data cb timeout direct cacheable).1.timer.tasks =
          { taskId := w.timer.nextTaskId,
            expectedResponses :=
              if direct then 1 else w.params.node_group_size,
            deadline := w.now + timeout } :: w.timer.tasks) ∧
      (cb = false →
        m.id = none ∧
        (Send w dest gc data cb timeout direct cacheable).1.timer =
          w.timer) := by
  have hval : ¬(data = [] ∨ data.length > w.params.max_data_size) := by
    push_neg
    exact ⟨he, hs⟩
  unfold Send
  rw [if_neg hd, if_neg hval]
  simp only [sendTaskSetup_eq]
  cases cb <;> cases direct <;>
    simp only [Bool.false_eq_true, Bool.true_eq_false, if_true, if_false] <;>
    split
  all_goals try split
  all_goals try split
  all_goals refine ⟨_, rfl, rfl, fun h => ?_, fun h => ?_⟩
  all_goals first | exact ⟨rfl, rfl⟩ | simp_all

/-- C2 witness: a validated group send (`direct = false`) with a callback
from the sample node registers a task expecting `node_group_size`
responses with deadline `now + timeout` and stamps its id on the
envelope. -/
theorem send_replication_and_pending_task_witness :
    (3 : Nat) ≠ 0 ∧ ([1, 2] : List Nat) ≠ [] ∧
    ([1, 2] : List Nat).length ≤ sampleWorld.params.max_data_size ∧
    ∃ m : ProtoMessage,
      ((Send sampleWorld 3 0 [1, 2] true 30 false false).2.filterMap
         Action.envelope) = [m] ∧
      m.replication =
        (if false then 1 else sampleWorld.params.node_group_size) ∧
      (true = true →
        m.id = some sampleWorld.timer.nextTaskId ∧
        (Send sampleWorld 3 0 [1, 2] true 30 false false).1.timer.tasks =
          { taskId := sampleWorld.timer.nextTaskId,
            expectedResponses :=
              if false then 1 else sampleWorld.params.node_group_size,
            deadline := sampleWorld.now + 30 } ::
            sampleWorld.timer.tasks) ∧
      ((true : Bool) = false →
        m.id = none ∧
        (Send sampleWorld 3 0 [1, 2] true 30 false false).1.timer =
          sampleWorld.timer) :=
  ⟨by decide, by decide, by decide,
   send_replication_and_pending_task sampleWorld 3 0 [1, 2] true 30 false
     false (by decide) (by decide) (by decide)⟩

/-- C3: a validated send from an anonymous node or one with an empty
routing table goes out as a single direct transport send on the bootstrap
connection, with `relay_id` set to the node's own id and
`relay_connection_id` to its relay handle; the installed completion
handler, on any transport failure, cancels the pending task for the
envelope's id and raises `kAnonymousSessionEnded` for an anonymous node
and `kPartialJoinSessionEnded` otherwise. -/
theorem send_relay_path_and_failure_handling
    (w : World) (dest gc : Nat) (data : List Nat) (cb : Bool)
    (timeout : Nat) (direct cacheable : Bool)
    (hd : dest ≠ 0) (he : data ≠ [])
    (hs : data.length ≤ w.params.max_data_size)
    (hrel : w.kAnonymousNode = true ∨ w.rt.length = 0) :
    ∃ m : ProtoMessage,
      (Send w dest gc data cb timeout direct cacheable).2 =
        [Action.sendToDirect m w.bootstrapConnectionId] ∧
      m.relay_id = some w.kNodeId ∧
      m.relay_connection_id = some w.relayConnectionId ∧
      ∀ wr : World, wr.kAnonymousNode = w.kAnonymousNode →
        ∀ result : Int, result ≠ 0 →
          relaySendResult wr m.idVal result =
            ({ wr with timer := wr.timer.cancelTask m.idVal },
             [Action.notifyStatus
                (if w.kAnonymousNode = true then
                   StatusCode.kAnonymousSessionEnded
                 else StatusCode.kPartialJoinSessionEnded)]) := by
  have hval : ¬(data = [] ∨ data.length > w.params.max_data_size) := by
    push_neg
    exact ⟨he, hs⟩
  unfold Send
  rw [if_neg hd, if_neg hval]
  simp only [sendTaskSetup_eq]
  cases cb <;> cases direct <;>
    simp only [Bool.false_eq_true, Bool.true_eq_false, if_true, if_false] <;>
    rw [if_pos hrel] <;>
    refine ⟨_, rfl, rfl, rfl, fun wr hanon result hres => ?_⟩ <;>
    · unfold relaySendResult
      rw [if_pos hres, hanon]

/-- C3 witness: a direct send with a callback from the sample node in the
partial-join state (empty routing table). -/
theorem send_relay_path_and_failure_handling_witness :
    (3 : Nat) ≠ 0 ∧ ([1, 2] : List Nat) ≠ [] ∧
    ([1, 2] : List Nat).length ≤ emptyRTWorld.params.max_data_size ∧
    (emptyRTWorld.kAnonymousNode = true ∨ emptyRTWorld.rt.length = 0) ∧
    ∃ m : ProtoMessage,
      (Send emptyRTWorld 3 0 [1, 2] true 30 true false).2 =
        [Action.sendToDirect m emptyRTWorld.bootstrapConnectionId] ∧
      m.relay_id = some emptyRTWorld.kNodeId ∧
      m.relay_connection_id = some emptyRTWorld.relayConnectionId ∧
      ∀ wr : World, wr.kAnonymousNode = emptyRTWorld.kAnonymousNode →
        ∀ result : Int, result ≠ 0 →
          relaySendResult wr m.idVal result =
            ({ wr with timer := wr.timer.cancelTask m.idVal },
             [Action.notifyStatus
                (if emptyRTWorld.kAnonymousNode = true then
                   StatusCode.kAnonymousSessionEnded
                 else StatusCode.kPartialJoinSessionEnded)]) :=
  ⟨by decide, by decide, by decide, Or.inr (by decide),
   send_relay_path_and_failure_handling emptyRTWorld 3 0 [1, 2] true 30
     true false (by decide) (by decide) (by decide) (Or.inr (by decide))⟩

/-- C4: a validated send from a non-anonymous node with a non-empty routing
table stamps its own id as `source_id` and then: delivers the message back
into the inbound receive path when the destination is the node itself and
the node is not a client; in every other case it hands the envelope to the
transport's closest-node routing. -/
theorem send_steady_state_next_hop
    (w : World) (dest gc : Nat) (data : List Nat) (cb : Bool)
    (timeout : Nat) (direct cacheable : Bool)
    (hd : dest ≠ 0) (he : data ≠ [])
    (hs : data.length ≤ w.params.max_data_size)
    (hanon : w.kAnonymousNode = false) (hrt : w.rt.length ≠ 0) :
    ∃ m : ProtoMessage,
      m.source_id = some w.kNodeId ∧
      (dest = w.kNodeId → w.clientMode = false →
        (Send w dest gc data cb timeout direct cacheable).2 =
          [Action.localReceive m]) ∧
      ((dest ≠ w.kNodeId ∨ w.clientMode = true) →
        (Send w dest gc data cb timeout direct cacheable).2 =
          [Action.sendToClosest m]) := by
  have hval : ¬(data = [] ∨ data.length > w.params.max_data_size) := by
    push_neg
    exact ⟨he, hs⟩
  have hcond : ¬(w.kAnonymousNode = true ∨ w.rt.length = 0) := by
    rw [hanon]
    simp [hrt]
  unfold Send
  rw [if_neg hd, if_neg hval]
  simp only [sendTaskSetup_eq]
  cases cb <;> cases direct <;>
    simp only [Bool.false_eq_true, Bool.true_eq_false, if_true, if_false] <;>
    rw [if_neg hcond] <;>
    by_cases hdw : w.kNodeId = dest
  all_goals
    first
    | (rw [if_pos hdw]
       exact ⟨_, rfl, fun h1 _ => absurd h1.symm hdw, fun _ => rfl⟩)
    | (rw [if_neg (by simp [hdw])]
       by_cases hcm : w.clientMode = true
       · rw [if_pos hcm]
         exact ⟨_, rfl, fun h1 h2 => absurd hcm (by simp [h2]),
                fun _ => rfl⟩
       · rw [if_neg hcm]
         refine ⟨_, rfl, fun _ _ => rfl, fun h => ?_⟩
         rcases h with h | h
         · exact absurd hdw.symm h
         · exact absurd h hcm)

/-- C4 witness: the sample node sending to its own id while not in client
mode, instantiating the steady-state next-hop theorem. -/
theorem send_steady_state_next_hop_witness :
    (5 : Nat) ≠ 0 ∧ ([1, 2] : List Nat) ≠ [] ∧
    ([1, 2] : List Nat).length ≤ sampleWorld.params.max_data_size ∧
    sampleWorld.kAnonymousNode = false ∧ sampleWorld.rt.length ≠ 0 ∧
    ∃ m : ProtoMessage,
      m.source_id = some sampleWorld.kNodeId ∧
      (5 = sampleWorld.kNodeId → sampleWorld.clientMode = false →
        (Send sampleWorld 5 0 [1, 2] false 30 true false).2 =
          [Action.localReceive m]) ∧
      ((5 ≠ sampleWorld.kNodeId ∨ sampleWorld.clientMode = true) →
        (Send sampleWorld 5 0 [1, 2] false 30 true false).2 =
          [Action.sendToClosest m]) :=
  ⟨by decide, by decide, by decide, by decide, by decide,
   send_steady_state_next_hop sampleWorld 5 0 [1, 2] false 30 true false
     (by decide) (by decide) (by decide) (by decide) (by decide)⟩

/-- C5 counterexample: a running node whose routing table sits exactly at
`routing_table_size_threshold` (48 entries, non-empty).  A steady-state
recovery-timer fire (`ignore_size = false`) neither re-bootstraps nor sends
a FindNodes request nor re-arms the recovery timer — the claim that every
such fire with a non-empty table sends a request and re-arms is false
(`routing_impl.cc:550` only acts when `Size() <
routing_table_size_threshold`). -/
theorem resend_at_threshold_sends_nothing :
    thresholdWorld.running = true ∧ thresholdWorld.rt.length ≠ 0 ∧
    ReSendFindNodeRequest thresholdWorld ErrorCode.success false =
      (thresholdWorld, []) :=
  ⟨rfl, by decide, by decide⟩

/-- C5 (amended): when the recovery timer fires in the steady state: an
empty routing table schedules re-bootstrap instead of sending; a non-empty
table below `routing_table_size_threshold` sends a FindNodes request toward
the closest node asking for `max_routing_table_size` nodes and re-arms the
recovery timer with `find_node_interval`; a table at or above the threshold
neither sends nor re-arms. -/
theorem resend_find_node_recovery_behaviour
    (w : World) (h_run : w.running = true) :
    (w.rt.length = 0 →
      ReSendFindNodeRequest w ErrorCode.success false =
        (w, [Action.armReBootstrapTimer w.params.re_bootstrap_time_lag])) ∧
    (w.rt.length ≠ 0 →
      w.rt.length < w.params.routing_table_size_threshold →
      ReSendFindNodeRequest w ErrorCode.success false =
        (w, [Action.sendRpcToClosest
               { source := w.kNodeId, target := w.kNodeId,
                 num_nodes_requested := w.params.max_routing_table_size,
                 relay_message := false, relay_connection_id := none },
             Action.armRecoveryTimerStaleGuard w.params.find_node_interval
               ErrorCode.success])) ∧
    (w.rt.length ≠ 0 →
      w.params.routing_table_size_threshold ≤ w.rt.length →
      ReSendFindNodeRequest w ErrorCode.success false = (w, [])) := by
  refine ⟨fun h0 => ?_, fun hne hlt => ?_, fun hne hge => ?_⟩
  · simp [ReSendFindNodeRequest, ReBootstrap, h0, h_run]
  · simp [ReSendFindNodeRequest, hne, hlt, h_run]
  · simp [ReSendFindNodeRequest, hne, Nat.not_lt.mpr hge]

/-- C5 witness: the amended recovery behaviour instantiated at the sample
node (a running node with 2 routing-table entries). -/
theorem resend_find_node_recovery_behaviour_witness :
    sampleWorld.running = true ∧
    ((sampleWorld.rt.length = 0 →
      ReSendFindNodeRequest sampleWorld ErrorCode.success false =
        (sampleWorld,
         [Action.armReBootstrapTimer
            sampleWorld.params.re_bootstrap_time_lag])) ∧
    (sampleWorld.rt.length ≠ 0 →
      sampleWorld.rt.length <
        sampleWorld.params.routing_table_size_threshold →
      ReSendFindNodeRequest sampleWorld ErrorCode.success false =
        (sampleWorld,
         [Action.sendRpcToClosest
            { source := sampleWorld.kNodeId, target := sampleWorld.kNodeId,
              num_nodes_requested :=
                sampleWorld.params.max_routing_table_size,
              relay_message := false, relay_connection_id := none },
          Action.armRecoveryTimerStaleGuard
            sampleWorld.params.find_node_interval ErrorCode.success])) ∧
    (sampleWorld.rt.length ≠ 0 →
      sampleWorld.params.routing_table_size_threshold ≤
        sampleWorld.rt.length →
      ReSendFindNodeRequest sampleWorld ErrorCode.success false =
        (sampleWorld, []))) :=
  ⟨rfl, resend_find_node_recovery_behaviour sampleWorld rfl⟩

/-- C6: the finding-close setup loop.  While the routing table is empty and
the failure bound has not been reached, each invocation sends a FindNodes
request asking for exactly 1 node closest to the node's own id directly to
the bootstrap connection and re-arms the setup timer with
`find_close_node_interval` (so the request repeats each interval); at the
first timer wake (`attempts ≠ 0`) with a non-empty routing table, the setup
timer is not re-armed and the recovery timer is armed with
`find_node_interval`. -/
theorem find_closest_node_setup_loop
    (w : World) (attempts : Nat) (h_run : w.running = true) :
    (w.rt.length = 0 →
      attempts < w.params.maximum_find_close_node_failures →
      FindClosestNode w ErrorCode.success attempts =
        (w, [Action.sendRpcToDirect
               { source := w.kNodeId, target := w.kNodeId,
                 num_nodes_requested := 1, relay_message := true,
                 relay_connection_id := some w.relayConnectionId }
               w.bootstrapConnectionId,
             Action.armSetupTimer w.params.find_close_node_interval
               (attempts + 1)])) ∧
    (attempts ≠ 0 → w.rt.length ≠ 0 →
      FindClosestNode w ErrorCode.success attempts =
        (w, [Action.armRecoveryTimer w.params.find_node_interval
               false])) := by
  constructor
  · intro h0 hlt
    simp [FindClosestNode, h_run, h0, Nat.not_le.mpr hlt]
  · intro ha hne
    simp [FindClosestNode, h_run, ha, Nat.pos_of_ne_zero hne]

/-- C6 witness: the setup loop instantiated at the sample node in the
partial-join state with one attempt made. -/
theorem find_closest_node_setup_loop_witness :
    emptyRTWorld.running = true ∧
    ((emptyRTWorld.rt.length = 0 →
      1 < emptyRTWorld.params.maximum_find_close_node_failures →
      FindClosestNode emptyRTWorld ErrorCode.success 1 =
        (emptyRTWorld,
         [Action.sendRpcToDirect
            { source := emptyRTWorld.kNodeId,
              target := emptyRTWorld.kNodeId,
              num_nodes_requested := 1, relay_message := true,
              relay_connection_id := some emptyRTWorld.relayConnectionId }
            emptyRTWorld.bootstrapConnectionId,
          Action.armSetupTimer
            emptyRTWorld.params.find_close_node_interval 2])) ∧
    ((1 : Nat) ≠ 0 → emptyRTWorld.rt.length ≠ 0 →
      FindClosestNode emptyRTWorld ErrorCode.success 1 =
        (emptyRTWorld,
         [Action.armRecoveryTimer
            emptyRTWorld.params.find_node_interval false]))) :=
  ⟨rfl, find_closest_node_setup_loop emptyRTWorld 1 rfl⟩

/-- C7 (code divergence): at a setup-timer wake with an empty routing table
and `attempts = maximum_find_close_node_failures` (3), the call to
`ReBootstrap()` (`routing_impl.cc:203`) is not followed by a `return`
(unlike the sibling site at `routing_impl.cc:548`), so in the very same
invocation — after re-bootstrap has been scheduled — the node still sends
another FindNodes request to the bootstrap connection and re-arms the setup
timer with the incremented attempt count. -/
theorem find_closest_node_rebootstrap_falls_through :
    FindClosestNode emptyRTWorld ErrorCode.success 3 =
      (emptyRTWorld,
       [Action.armReBootstrapTimer
          emptyRTWorld.params.re_bootstrap_time_lag,
        Action.sendRpcToDirect
          { source := emptyRTWorld.kNodeId,
            target := emptyRTWorld.kNodeId,
            num_nodes_requested := 1, relay_message := true,
            relay_connection_id := some emptyRTWorld.relayConnectionId }
          emptyRTWorld.bootstrapConnectionId,
        Action.armSetupTimer
          emptyRTWorld.params.find_close_node_interval 4]) := by decide

/-- C8 counterexample: dropping the close routing-table peer on connection
11 of the sample node arms the recovery timer with `recovery_time_lag`, but
the FindNodes request emitted at the wake asks for
`max_routing_table_size = 64` nodes — not `closest_nodes_size = 8` as the
claim states — because `routing_impl.cc:562` only requests
`closest_nodes_size` when the table is larger than
`routing_table_size_threshold`. -/
theorem lost_close_peer_requests_max_rt_size :
    DoOnConnectionLost sampleWorld 11 =
      (afterLostWorld,
       [Action.armRecoveryTimer sampleWorld.params.recovery_time_lag
          true]) ∧
    recoveryTimerWake afterLostWorld true ErrorCode.success =
      (afterLostWorld,
       [Action.sendRpcToClosest
          { source := 5, target := 5, num_nodes_requested := 64,
            relay_message := false, relay_connection_id := none },
        Action.armRecoveryTimerStaleGuard 60 ErrorCode.success]) ∧
    (64 : Nat) ≠ sampleWorld.params.closest_nodes_size :=
  ⟨by decide, by decide, by decide⟩

/-- C8 (amended): when the transport reports a lost connection of a
routing-table peer lying within the node's `closest_nodes_size` range, the
peer is dropped from the table and the recovery timer is armed with
`recovery_time_lag`; at the wake, while the table is still non-empty, a
FindNodes request is emitted asking for `closest_nodes_size` nodes when the
remaining table is larger than `routing_table_size_threshold` and for
`max_routing_table_size` nodes otherwise. -/
theorem connection_lost_close_peer_topup
    (w : World) (lost : Nat) (dn : NodeInfo)
    (h_run : w.running = true)
    (hfind : w.rt.find? (fun n => n.connection_id == lost) = some dn)
    (hid : dn.node_id ≠ 0)
    (hrange : isThisNodeInRange w.kNodeId w.rt dn.node_id
        w.params.closest_nodes_size = true) :
    DoOnConnectionLost w lost =
      ({ w with rt := w.rt.filter (fun m => m.connection_id != lost) },
       [Action.armRecoveryTimer w.params.recovery_time_lag true]) ∧
    (∀ w2 : World, w2.running = true → w2.rt.length ≠ 0 →
      recoveryTimerWake w2 true ErrorCode.success =
        (w2, [Action.sendRpcToClosest
                { source := w2.kNodeId, target := w2.kNodeId,
                  num_nodes_requested :=
                    if w2.rt.length > w2.params.routing_table_size_threshold
                    then w2.params.closest_nodes_size
                    else w2.params.max_routing_table_size,
                  relay_message := false, relay_connection_id := none },
              Action.armRecoveryTimerStaleGuard
                w2.params.find_node_interval ErrorCode.success])) := by
  constructor
  · simp [DoOnConnectionLost, lostCloseNodeResend, dropNodeByConnection,
      hfind, hrange, hid, h_run]
  · intro w2 h_run2 hne2
    simp [recoveryTimerWake, timerWakeGuard, ReSendFindNodeRequest,
      hne2, h_run2]

/-- C8 witness: losing connection 11 (peer 1, inside the sample node's
close range) instantiates the amended top-up theorem. -/
theorem connection_lost_close_peer_topup_witness :
    sampleWorld.running = true ∧
    sampleWorld.rt.find? (fun n => n.connection_id == 11) =
      some { node_id := 1, connection_id := 11 } ∧
    ({ node_id := 1, connection_id := 11 } : NodeInfo).node_id ≠ 0 ∧
    isThisNodeInRange sampleWorld.kNodeId sampleWorld.rt 1
      sampleWorld.params.closest_nodes_size = true ∧
    (DoOnConnectionLost sampleWorld 11 =
      ({ sampleWorld with
         rt := sampleWorld.rt.filter (fun m => m.connection_id != 11) },
       [Action.armRecoveryTimer sampleWorld.params.recovery_time_lag
          true]) ∧
    (∀ w2 : World, w2.running = true → w2.rt.length ≠ 0 →
      recoveryTimerWake w2 true ErrorCode.success =
        (w2, [Action.sendRpcToClosest
                { source := w2.kNodeId, target := w2.kNodeId,
                  num_nodes_requested :=
                    if w2.rt.length > w2.params.routing_table_size_threshold
                    then w2.params.closest_nodes_size
                    else w2.params.max_routing_table_size,
                  relay_message := false, relay_connection_id := none },
              Action.armRecoveryTimerStaleGuard
                w2.params.find_node_interval ErrorCode.success]))) :=
  ⟨rfl, by decide, by decide, by decide,
   connection_lost_close_peer_topup sampleWorld 11
     { node_id := 1, connection_id := 11 } rfl (by decide) (by decide)
     (by decide)⟩

/-- C9 (code divergence): the recovery-timer re-arm installed inside
`ReSendFindNodeRequest` (`routing_impl.cc:574-577`) guards its wake with
the captured outer `error_code` — never `operation_aborted` at that point —
instead of the freshly delivered `error_code_local`, so a wake whose status
is `operation_aborted` still invokes `ReSendFindNodeRequest`, contrary to
the claim; the wake-status guard used by every other call site would have
blocked it.  The invoked function's own first comparison then returns
without doing any work. -/
theorem resend_rearm_guard_ignores_wake_status :
    reSendReArmGuard ErrorCode.success ErrorCode.operationAborted = true ∧
    timerWakeGuard ErrorCode.operationAborted = false ∧
    recoveryTimerWakeStale sampleWorld ErrorCode.success
      ErrorCode.operationAborted = (sampleWorld, []) ∧
    ReSendFindNodeRequest sampleWorld ErrorCode.operationAborted false =
      (sampleWorld, []) :=
  ⟨rfl, rfl, by decide, by decide⟩

/-- C10 (code divergence): the clearing loop of
`BootstrapFromTheseEndpoints` (`routing_impl.cc:122`) re-reads
`routing_table_.Size()` while the table shrinks, so on the sample node's
2-entry table it drops only one entry; the table handed to `DoBootstrap` is
not empty, violating `assert(routing_table_.Size() == 0)` at
`routing_impl.cc:149`. -/
theorem bootstrap_drop_loop_leaves_entries :
    sampleWorld.rt.length = 2 ∧
    (bootstrapDropPhase sampleWorld).1.rt =
      [{ node_id := 2, connection_id := 12 }] ∧
    doBootstrapAssertCheck (bootstrapDropPhase sampleWorld).1.rt =
      false :=
  ⟨rfl, by decide, by decide⟩

end MaidSafeRouting
